import Mathlib

/-!
Verification development for the booking-app backend.

The file shallowly embeds the Python source of the repository's core:
`app/models/service.py`, `app/models/booking.py`,
`app/repositories/service_repository.py`,
`app/repositories/booking_repository.py`, `app/schemas/service.py` and
`app/schemas/booking.py`, and proves properties of the embedded
operations.  MongoDB collections are modelled as lists of documents,
documents as association lists from field names to BSON-like values,
Python `datetime` values as an integer tick plus an optional UTC offset
(`none` = timezone-naive), and fallible Python code as `Except`.
-/

/-- Errors a Python call can surface: an uncaught `TypeError`, an uncaught
`ValueError`, a pydantic `ValidationError` (FastAPI surfaces it as a 422
response), a `bson.errors.InvalidId` escaping a model constructor, and a
`fastapi.HTTPException` carrying its status code. -/
inductive PyErr where
  | typeError
  | valueError
  | validationError
  | invalidId
  | http (code : Nat)
deriving DecidableEq

/-- A Python `datetime`: a wall-clock tick together with an optional UTC
offset in the same unit as the tick (`none` models a timezone-naive value,
`some off` a timezone-aware value whose `utcoffset()` is `off`). -/
structure PyDateTime where
  tick : Int
  tz : Option Int
deriving DecidableEq

/-- The UTC instant a datetime denotes.  A naive value is read as UTC,
which is exactly how the BSON encoder persists naive datetimes. -/
def utcInstant : PyDateTime → Int
  | ⟨t, none⟩ => t
  | ⟨t, some off⟩ => t - off

/-- Python `a < b` on datetimes: comparing a naive with an aware value
raises `TypeError`; otherwise the denoted instants are compared. -/
def pyDTlt (a b : PyDateTime) : Except PyErr Bool :=
  match a.tz, b.tz with
  | none, none => .ok (decide (a.tick < b.tick))
  | some _, some _ => .ok (decide (utcInstant a < utcInstant b))
  | _, _ => .error .typeError

/-- `dt.replace(tzinfo=timezone.utc)` applied only to naive values: the
normalization `to_mongo` performs on every timestamp field. -/
def ensureAware : PyDateTime → PyDateTime
  | ⟨t, none⟩ => ⟨t, some 0⟩
  | d => d

/-- Hex-digit test used by `bson.ObjectId` string validation. -/
def isHexDigit (c : Char) : Bool :=
  c.isDigit || ('a' ≤ c && c ≤ 'f') || ('A' ≤ c && c ≤ 'F')

/-- Lower-casing of the six upper-case hex digits: `str(ObjectId(s))`
renders the identifier in lower-case hex, whatever the case of the
accepted input string. -/
def hexCharLower : Char → Char
  | 'A' => 'a'
  | 'B' => 'b'
  | 'C' => 'c'
  | 'D' => 'd'
  | 'E' => 'e'
  | 'F' => 'f'
  | c => c

/-- `bson.ObjectId.is_valid` on a string: exactly the 24-character hex
strings are valid. -/
def isValidOidString (s : String) : Bool :=
  s.length = 24 && s.data.all isHexDigit

/-- Canonical (lower-case) form of a validated ObjectId string. -/
def oidCanon (s : String) : String :=
  String.mk (s.data.map hexCharLower)

/-- `bson.ObjectId(s)` on a string argument: succeeds exactly on
24-hex-character strings and yields the canonical lower-case form;
anything else raises (`InvalidId`). -/
def parseObjectId (s : String) : Option String :=
  if isValidOidString s then some (oidCanon s) else none

/-- `str(oid)` for an ObjectId held in canonical form. -/
def oidToString (h : String) : String := h

/-- BSON-like values stored in documents.  Numeric fields (price,
duration) are modelled by `int`; `dt` carries the Python datetime object
(the BSON encoder collapses it to an instant on write, see `encodeVal`). -/
inductive BVal where
  | null
  | int (n : Int)
  | str (s : String)
  | strList (xs : List String)
  | oid (h : String)
  | dt (d : PyDateTime)
deriving DecidableEq

/-- A MongoDB document: an association list from field names to values. -/
abbrev Doc := List (String × BVal)

/-- A MongoDB collection: the list of its documents. -/
abbrev Collection := List Doc

/-- First value stored under a key, if any. -/
def Doc.get : Doc → String → Option BVal
  | [], _ => none
  | kv :: rest, k => if kv.1 = k then some kv.2 else Doc.get rest k

/-- `d[k] = v`: replace the first binding of `k`, or append a new one. -/
def Doc.set : Doc → String → BVal → Doc
  | [], k, v => [(k, v)]
  | kv :: rest, k, v => if kv.1 = k then (k, v) :: rest else kv :: Doc.set rest k v

/-- What the BSON encoder makes of a value on write: a datetime is
persisted as its UTC instant (a naive value is taken to be UTC), so the
naive/aware distinction does not survive a round trip through the store. -/
def encodeVal : BVal → BVal
  | .dt d => .dt ⟨utcInstant d, none⟩
  | v => v

/-- MongoDB `$set` with the given field/value pairs (values BSON-encoded). -/
def applySet (d : Doc) (kvs : List (String × BVal)) : Doc :=
  kvs.foldl (fun acc kv => Doc.set acc kv.1 (encodeVal kv.2)) d

/- Field-name and status-string constants (the literal keys used by the
Python source). -/

def fID : String := "_id"
def fPlainId : String := "id"
def fName : String := "name"
def fDescription : String := "description"
def fPrice : String := "price"
def fDuration : String := "duration"
def fAvailability : String := "availability"
def fCategory : String := "category"
def fCreatedAt : String := "created_at"
def fUpdatedAt : String := "updated_at"
def fUserId : String := "user_id"
def fServiceId : String := "service_id"
def fBookingTime : String := "booking_time"
def fStatus : String := "status"
def fNotes : String := "notes"
def fDate : String := "date"
def fCustomerName : String := "customer_name"

def sPending : String := "pending"
def sConfirmed : String := "confirmed"
def sCanceled : String := "canceled"
def sCompleted : String := "completed"

/-!  Entity models (`app/models/service.py`, `app/models/booking.py`).

`Service.__init__` / `Booking.__init__` accept an arbitrary field mapping
(`**data`), so both constructors are embedded as functions on `Doc`.
`now` models the clock read by the `datetime.now(timezone.utc)` default
factories, and `fresh` the ObjectId generated by `PyObjectId()` when no
id is supplied. -/

/-- The in-memory `Service` entity (ObjectId fields held in canonical
24-hex string form, numeric fields as integers). -/
structure Service where
  id : String
  name : String
  description : Option String
  price : Int
  duration : Int
  availability : List String
  category : Option String
  created_at : PyDateTime
  updated_at : PyDateTime
deriving DecidableEq

/-- The in-memory `Booking` entity.  `status` is a plain string here,
mirroring `status: str = "confirmed"` in the model class. -/
structure Booking where
  id : String
  user_id : String
  service_id : String
  booking_time : PyDateTime
  status : String
  notes : Option String
  created_at : PyDateTime
  updated_at : PyDateTime
deriving DecidableEq

/-- The id-resolution logic shared by both `__init__`s: take `id` if
supplied, else `_id`, else generate a fresh ObjectId; a string value is
converted through `ObjectId(...)` (raising `InvalidId` when malformed),
an ObjectId value is taken as is, any other type fails validation. -/
def entityIdOf (fresh : String) (d : Doc) : Except PyErr String :=
  match (Doc.get d fPlainId).orElse (fun _ => Doc.get d fID) with
  | some (.str s) =>
      if isValidOidString s then .ok (oidCanon s) else .error .invalidId
  | some (.oid h) => .ok h
  | some _ => .error .validationError
  | none => .ok fresh

/-- Required string field (pydantic: only `str` input is accepted). -/
def reqStr (d : Doc) (k : String) : Except PyErr String :=
  match Doc.get d k with
  | some (.str s) => .ok s
  | _ => .error .validationError

/-- Optional string field defaulting to `None`. -/
def optStr (d : Doc) (k : String) : Except PyErr (Option String) :=
  match Doc.get d k with
  | none => .ok none
  | some .null => .ok none
  | some (.str s) => .ok (some s)
  | some _ => .error .validationError

/-- Required numeric field. -/
def reqInt (d : Doc) (k : String) : Except PyErr Int :=
  match Doc.get d k with
  | some (.int n) => .ok n
  | _ => .error .validationError

/-- Required datetime field. -/
def reqDT (d : Doc) (k : String) : Except PyErr PyDateTime :=
  match Doc.get d k with
  | some (.dt t) => .ok t
  | _ => .error .validationError

/-- Timestamp field with the `__init__` default: absent or `None` becomes
`datetime.now(timezone.utc)` (aware). -/
def tsWithDefault (now : Int) (d : Doc) (k : String) : Except PyErr PyDateTime :=
  match Doc.get d k with
  | none => .ok ⟨now, some 0⟩
  | some .null => .ok ⟨now, some 0⟩
  | some (.dt t) => .ok t
  | some _ => .error .validationError

/-- `Service(**data)`: id resolution, then pydantic field validation with
the model's defaults (`availability` defaults to `[]`, timestamps to now). -/
def Service.ofData (now : Int) (fresh : String) (d : Doc) : Except PyErr Service := do
  let idv ← entityIdOf fresh d
  let nm ← reqStr d fName
  let desc ← optStr d fDescription
  let pr ← reqInt d fPrice
  let du ← reqInt d fDuration
  let av ←
    match Doc.get d fAvailability with
    | none => .ok []
    | some (.strList xs) => .ok xs
    | some _ => .error .validationError
  let cat ← optStr d fCategory
  let ca ← tsWithDefault now d fCreatedAt
  let ua ← tsWithDefault now d fUpdatedAt
  .ok ⟨idv, nm, desc, pr, du, av, cat, ca, ua⟩

/-- The `service_id` resolution of `Booking.__init__`: a string is
converted through `ObjectId` (raising `InvalidId` when malformed), an
ObjectId is taken as is; the field is required. -/
def bookingSidOf (d : Doc) : Except PyErr String :=
  match Doc.get d fServiceId with
  | some (.str s) =>
      if isValidOidString s then .ok (oidCanon s) else .error .invalidId
  | some (.oid h) => .ok h
  | some _ => .error .validationError
  | none => .error .validationError

/-- The `status` field of `Booking`: a plain `str` with the model-level
default `"confirmed"`. -/
def bookingStatusOf (d : Doc) : Except PyErr String :=
  match Doc.get d fStatus with
  | none => .ok sConfirmed
  | some (.str s) => .ok s
  | some _ => .error .validationError

/-- `Booking(**data)`: id and `service_id` resolution, then pydantic
validation; `status` defaults to the model-level `"confirmed"`,
timestamps to now. -/
def Booking.ofData (now : Int) (fresh : String) (d : Doc) : Except PyErr Booking :=
  match entityIdOf fresh d with
  | .error e => .error e
  | .ok idv =>
    match bookingSidOf d with
    | .error e => .error e
    | .ok sid =>
      match reqStr d fUserId with
      | .error e => .error e
      | .ok uid =>
        match reqDT d fBookingTime with
        | .error e => .error e
        | .ok bt =>
          match bookingStatusOf d with
          | .error e => .error e
          | .ok st =>
            match optStr d fNotes with
            | .error e => .error e
            | .ok nts =>
              match tsWithDefault now d fCreatedAt with
              | .error e => .error e
              | .ok ca =>
                match tsWithDefault now d fUpdatedAt with
                | .error e => .error e
                | .ok ua => .ok ⟨idv, uid, sid, bt, st, nts, ca, ua⟩

/-- Optional-field entry of `model_dump(exclude_none=True)`. -/
def optEntry (k : String) : Option String → Doc
  | none => []
  | some s => [(k, .str s)]

/-- `Service.to_mongo`: dump with `_id` alias, drop `None` fields, keep
the ObjectId, and normalize every timestamp to timezone-aware UTC. -/
def Service.to_mongo (e : Service) : Doc :=
  [(fID, .oid e.id), (fName, .str e.name)]
    ++ optEntry fDescription e.description
    ++ [(fPrice, .int e.price), (fDuration, .int e.duration),
        (fAvailability, .strList e.availability)]
    ++ optEntry fCategory e.category
    ++ [(fCreatedAt, .dt (ensureAware e.created_at)),
        (fUpdatedAt, .dt (ensureAware e.updated_at))]

/-- `Booking.to_mongo`: same shape; `booking_time` is normalized too. -/
def Booking.to_mongo (b : Booking) : Doc :=
  [(fID, .oid b.id), (fUserId, .str b.user_id),
   (fServiceId, .oid b.service_id),
   (fBookingTime, .dt (ensureAware b.booking_time)),
   (fStatus, .str b.status)]
    ++ optEntry fNotes b.notes
    ++ [(fCreatedAt, .dt (ensureAware b.created_at)),
        (fUpdatedAt, .dt (ensureAware b.updated_at))]

/-- `data["id"] = data.pop("_id")` performed by both `from_mongo`s. -/
def renameIdKey (d : Doc) : Doc :=
  match Doc.get d fID with
  | some v => Doc.set (d.filter (fun kv => kv.1 ≠ fID)) fPlainId v
  | none => d

/-- `Service.from_mongo(data)`: rename `_id` to `id`, then `cls(**data)`. -/
def Service.from_mongo (now : Int) (fresh : String) (d : Doc) : Except PyErr Service :=
  Service.ofData now fresh (renameIdKey d)

/-- `Booking.from_mongo(data)`: the Python body starts with
`if "_id" in data`, so calling it on `None` (an absent record) raises
`TypeError` instead of producing a "not found" outcome. -/
def Booking.from_mongo (now : Int) (fresh : String) : Option Doc → Except PyErr Booking
  | none => .error .typeError
  | some d => Booking.ofData now fresh (renameIdKey d)

/-!  Repository layer (`app/repositories/*.py`).

Each repository method becomes a function over an explicit `Collection`.
Read-only methods return `Except PyErr α`; mutating methods return the
resulting collection alongside the outcome, so the state survives even
when an exception propagates to the caller.  `now` models the clock
(`datetime.utcnow()` produces the naive value `⟨now, none⟩`). -/

/-- `find_one({"_id": oid})`: the first document whose `_id` equals the
ObjectId. -/
def findFirstById (coll : Collection) (h : String) : Option Doc :=
  coll.find? (fun d => decide (Doc.get d fID = some (.oid h)))

/-- Replace the first document matching the `_id` (`update_one` write). -/
def replaceFirstById : Collection → String → Doc → Collection
  | [], _, _ => []
  | d :: rest, h, nd =>
      if Doc.get d fID = some (.oid h) then nd :: rest
      else d :: replaceFirstById rest h nd

/-- `update_one({"_id": oid}, {"$set": kvs})`: returns the new collection
and the `modified_count` (0 when the matched document is unchanged after
BSON encoding, or when nothing matches). -/
def updateOneById (coll : Collection) (h : String) (kvs : List (String × BVal)) :
    Collection × Nat :=
  match findFirstById coll h with
  | none => (coll, 0)
  | some d =>
      let nd := applySet d kvs
      (replaceFirstById coll h nd, if nd = d then 0 else 1)

/-- `delete_one({"_id": oid})`: returns the new collection and the
`deleted_count`. -/
def deleteOneById : Collection → String → Collection × Nat
  | [], _ => ([], 0)
  | d :: rest, h =>
      if Doc.get d fID = some (.oid h) then (rest, 1)
      else
        let r := deleteOneById rest h
        (d :: r.1, r.2)

/-- `insert_one`: append the BSON-encoded document. -/
def insertOne (coll : Collection) (d : Doc) : Collection :=
  coll ++ [d.map (fun kv => (kv.1, encodeVal kv.2))]

/-- Sequential conversion of a result page, the first failure
propagating — the `[Model.from_mongo(document) async for document in
cursor]` comprehension. -/
def mapE {α β : Type} (f : α → Except PyErr β) : List α → Except PyErr (List β)
  | [] => .ok []
  | a :: as =>
    match f a with
    | .error e => .error e
    | .ok b =>
      match mapE f as with
      | .error e => .error e
      | .ok bs => .ok (b :: bs)

/-- One conjunct of a MongoDB filter document as built by the two `list`
methods: equality, inclusive datetime range, or the case-insensitive
`$regex` substring search used for customer names. -/
inductive QCond where
  | eq (v : BVal)
  | range (lo hi : Option PyDateTime)
  | regexCI (pat : String)
deriving DecidableEq

/-- A filter document: conjunction of per-field conditions. -/
abbrev MQuery := List (String × QCond)

/-- Case-insensitive substring containment (`$regex` with `$options: "i"`
on the plain-text patterns the API passes through). -/
def ciContainsSub (hay pat : String) : Bool :=
  let h := hay.data.map Char.toLower
  let p := pat.data.map Char.toLower
  (List.range (h.length + 1)).any (fun i => p.isPrefixOf (h.drop i))

/-- Does a document satisfy one condition on field `k`?  Range and regex
conditions only match values of the comparable type, matching MongoDB's
type bracketing; an absent field matches nothing our queries build. -/
def condMatches (d : Doc) (k : String) : QCond → Bool
  | .eq v => decide (Doc.get d k = some v)
  | .range lo hi =>
    match Doc.get d k with
    | some (.dt t) =>
        (match lo with
         | some a => decide (utcInstant a ≤ utcInstant t)
         | none => true)
        && (match hi with
            | some b => decide (utcInstant t ≤ utcInstant b)
            | none => true)
    | _ => false
  | .regexCI pat =>
    match Doc.get d k with
    | some (.str s) => ciContainsSub s pat
    | _ => false

/-- Conjunction over the whole filter document. -/
def docMatches (q : MQuery) (d : Doc) : Bool :=
  q.all (fun kc => condMatches d kc.1 kc.2)

/-- BSON type-bracket rank used when sorting heterogeneous values
(Null < numbers < strings < arrays < ObjectId < Date). -/
def bvalRank : BVal → Nat
  | .null => 0
  | .int _ => 1
  | .str _ => 2
  | .strList _ => 3
  | .oid _ => 4
  | .dt _ => 5

/-- Lexicographic comparison of string arrays. -/
def strListLe : List String → List String → Bool
  | [], _ => true
  | _ :: _, [] => false
  | a :: as, b :: bs => if a = b then strListLe as bs else decide (a < b)

/-- Sort comparison on BSON values: by type rank, then within the type. -/
def bvalLe (a b : BVal) : Bool :=
  match a, b with
  | .null, .null => true
  | .int x, .int y => decide (x ≤ y)
  | .str x, .str y => decide (x ≤ y)
  | .strList x, .strList y => strListLe x y
  | .oid x, .oid y => decide (x ≤ y)
  | .dt x, .dt y => decide (utcInstant x ≤ utcInstant y)
  | _, _ => decide (bvalRank a ≤ bvalRank b)

/-- Sort key of a document: the sort field's value, a missing field
sorting as Null (MongoDB's behaviour). -/
def docSortKey (sort_by : String) (d : Doc) : BVal :=
  (Doc.get d sort_by).getD .null

/-- Ascending comparison on documents for a sort field. -/
def docLe (sort_by : String) (a b : Doc) : Bool :=
  bvalLe (docSortKey sort_by a) (docSortKey sort_by b)

/-- Stable insertion into a sorted list. -/
def insertSorted (le : Doc → Doc → Bool) (d : Doc) : List Doc → List Doc
  | [] => [d]
  | x :: xs => if le d x then d :: x :: xs else x :: insertSorted le d xs

/-- `cursor.sort(sort_by, sort_direction)`: one deterministic ordering
consistent with the requested single-field sort (ties keep a stable
order; MongoDB guarantees no particular tie order). -/
def sortDocs (sort_by : String) (dir : Int) (l : List Doc) : List Doc :=
  if dir = 1 then l.foldr (insertSorted (docLe sort_by)) []
  else l.foldr (insertSorted (fun a b => docLe sort_by b a)) []

/-- `cursor.limit(n)`: pymongo treats `0` as "no limit" and a negative
`n` as a hard limit of `|n|`. -/
def applyLimit (n : Int) (l : List Doc) : List Doc :=
  if n = 0 then l else l.take n.natAbs

/-- `ServiceRepository.get_service`: parse the id (400 on failure), then
`find_one`; an absent record is explicitly `None`. -/
def ServiceRepository.get_service (coll : Collection) (now : Int) (fresh : String)
    (service_id : String) : Except PyErr (Option Service) :=
  match parseObjectId service_id with
  | none => .error (.http 400)
  | some oid =>
    match findFirstById coll oid with
    | some doc => (Service.from_mongo now fresh doc).map some
    | none => .ok none

/-- `BookingRepository.get_booking`: parse the id (400 on failure), then
`find_one`, and hand the result — present or not — to
`Booking.from_mongo` (which raises `TypeError` on `None`). -/
def BookingRepository.get_booking (coll : Collection) (now : Int) (fresh : String)
    (booking_id : String) : Except PyErr (Option Booking) :=
  match parseObjectId booking_id with
  | none => .error (.http 400)
  | some oid => (Booking.from_mongo now fresh (findFirstById coll oid)).map some

/-- The filter `list_services` builds: `if category:` adds an equality
condition, so `None` and the empty string both mean "no filter". -/
def serviceListFilter (category : Option String) : MQuery :=
  match category with
  | some c => if c = "" then [] else [(fCategory, .eq (.str c))]
  | none => []

/-- `ServiceRepository.list_services`: count over the filtered set, then
sort / skip / limit and convert the page. -/
def ServiceRepository.list_services (coll : Collection) (now : Int) (fresh : String)
    (skip limit : Int) (sort_by : String) (sort_direction : Int)
    (category : Option String) : Except PyErr (List Service × Nat) :=
  let q := serviceListFilter category
  let filtered := coll.filter (docMatches q)
  let total := filtered.length
  if sort_direction = 1 ∨ sort_direction = -1 then
    if skip < 0 then .error .valueError
    else
      match mapE (Service.from_mongo now fresh)
          (applyLimit limit ((sortDocs sort_by sort_direction filtered).drop skip.toNat)) with
      | .error e => .error e
      | .ok svcs => .ok (svcs, total)
  else .error .valueError

/-- The booking status enum of `app/models/booking.py`. -/
inductive BookingStatus where
  | pending
  | confirmed
  | canceled
  | completed
deriving DecidableEq

/-- The string value of a status (it is a `str`-valued enum). -/
def BookingStatus.toStr : BookingStatus → String
  | .pending => sPending
  | .confirmed => sConfirmed
  | .canceled => sCanceled
  | .completed => sCompleted

/-- The filter `list_bookings` builds: equality on status, an inclusive
`date` range, equality on the parsed `service_id` (400 when the non-empty
string is not a valid ObjectId), and a case-insensitive regex on
`customer_name`; every falsy parameter adds nothing. -/
def bookingListFilter (status_filter : Option BookingStatus)
    (date_from date_to : Option PyDateTime)
    (service_id customer_name : Option String) : Except PyErr MQuery :=
  let f1 : MQuery :=
    match status_filter with
    | some st => [(fStatus, .eq (.str st.toStr))]
    | none => []
  let f2 : MQuery :=
    if date_from.isSome || date_to.isSome then [(fDate, .range date_from date_to)]
    else []
  let f4 : MQuery :=
    match customer_name with
    | some c => if c = "" then [] else [(fCustomerName, .regexCI c)]
    | none => []
  match service_id with
  | some s =>
      if s = "" then .ok (f1 ++ f2 ++ f4)
      else
        match parseObjectId s with
        | some oid => .ok (f1 ++ f2 ++ [(fServiceId, .eq (.oid oid))] ++ f4)
        | none => .error (.http 400)
  | none => .ok (f1 ++ f2 ++ f4)

/-- `BookingRepository.list_bookings`: build the filter (400 may escape),
count, then sort / skip / limit and convert the page. -/
def BookingRepository.list_bookings (coll : Collection) (now : Int) (fresh : String)
    (skip limit : Int) (sort_by : String) (sort_direction : Int)
    (status_filter : Option BookingStatus) (date_from date_to : Option PyDateTime)
    (service_id customer_name : Option String) : Except PyErr (List Booking × Nat) :=
  match bookingListFilter status_filter date_from date_to service_id customer_name with
  | .error e => .error e
  | .ok q =>
    let filtered := coll.filter (docMatches q)
    let total := filtered.length
    if sort_direction = 1 ∨ sort_direction = -1 then
      if skip < 0 then .error .valueError
      else
        match mapE (fun d => Booking.from_mongo now fresh (some d))
            (applyLimit limit ((sortDocs sort_by sort_direction filtered).drop skip.toNat)) with
        | .error e => .error e
        | .ok bks => .ok (bks, total)
    else .error .valueError

/-- `ServiceRepository.update_service`: parse the id (400), load the
current entity (absent id returns `None`), stamp `updated_at` with the
naive `datetime.utcnow()`, `$set` only the supplied fields, and re-read;
`modified_count == 0` also returns `None`. -/
def ServiceRepository.update_service (coll : Collection) (now : Int) (fresh : String)
    (service_id : String) (update_data : Doc) :
    Collection × Except PyErr (Option Service) :=
  match parseObjectId service_id with
  | none => (coll, .error (.http 400))
  | some oid =>
    match ServiceRepository.get_service coll now fresh service_id with
    | .error e => (coll, .error e)
    | .ok none => (coll, .ok none)
    | .ok (some _) =>
      let upd := Doc.set update_data fUpdatedAt (.dt ⟨now, none⟩)
      let r := updateOneById coll oid upd
      if r.2 = 0 then (r.1, .ok none)
      else
        match ServiceRepository.get_service r.1 now fresh service_id with
        | .error e => (r.1, .error e)
        | .ok s => (r.1, .ok s)

/-- `BookingRepository.update_booking`: same shape, but the initial load
goes through `get_booking`, whose missing-record behaviour is a raised
`TypeError` rather than `None`. -/
def BookingRepository.update_booking (coll : Collection) (now : Int) (fresh : String)
    (booking_id : String) (update_data : Doc) :
    Collection × Except PyErr (Option Booking) :=
  match parseObjectId booking_id with
  | none => (coll, .error (.http 400))
  | some oid =>
    match BookingRepository.get_booking coll now fresh booking_id with
    | .error e => (coll, .error e)
    | .ok none => (coll, .ok none)
    | .ok (some _) =>
      let upd := Doc.set update_data fUpdatedAt (.dt ⟨now, none⟩)
      let r := updateOneById coll oid upd
      if r.2 = 0 then (r.1, .ok none)
      else
        match BookingRepository.get_booking r.1 now fresh booking_id with
        | .error e => (r.1, .error e)
        | .ok b => (r.1, .ok b)

/-- `ServiceRepository.delete_service`: parse the id (400), `delete_one`,
report whether a document was removed. -/
def ServiceRepository.delete_service (coll : Collection) (service_id : String) :
    Collection × Except PyErr Bool :=
  match parseObjectId service_id with
  | none => (coll, .error (.http 400))
  | some oid =>
    let r := deleteOneById coll oid
    (r.1, .ok (decide (0 < r.2)))

/-- `BookingRepository.delete_booking`. -/
def BookingRepository.delete_booking (coll : Collection) (booking_id : String) :
    Collection × Except PyErr Bool :=
  match parseObjectId booking_id with
  | none => (coll, .error (.http 400))
  | some oid =>
    let r := deleteOneById coll oid
    (r.1, .ok (decide (0 < r.2)))

/-- `BookingRepository.create_booking`: construct the model from the raw
field mapping (model defaults apply) and insert its document form. -/
def BookingRepository.create_booking (coll : Collection) (now : Int) (fresh : String)
    (booking_data : Doc) : Collection × Except PyErr Booking :=
  match Booking.ofData now fresh booking_data with
  | .error e => (coll, .error e)
  | .ok b => (insertOne coll b.to_mongo, .ok b)

/-!  Schema layer (`app/schemas/service.py`, `app/schemas/booking.py`).

Pydantic v2 semantics embedded: fields are processed in declaration
order; an absent optional field takes its default *without running any
field validator* and is recorded in `info.data`; a supplied field first
checks its `Field` constraints, then runs its `field_validator`s in
definition order, and is recorded in `info.data` only on success.  A
`ValueError` marks the field invalid (the model then fails with
`ValidationError`, surfaced as 422); any other exception — such as the
`TypeError` from comparing aware with naive datetimes — propagates out of
validation entirely.  `info.data` is modelled as the list of previously
recorded fields paired with "its recorded value is None". -/

/-- `all(v is None for v in info.data.values())` — the test of the
`check_at_least_one_field` validators; `all` of an empty collection is
vacuously `True`. -/
def checkAtLeastOneField (data : List (String × Bool)) : Bool :=
  data.all (fun kv => kv.2)

/-- `round(value, 2)` on the exact rational a float payload denotes. -/
def roundTo2 (q : ℚ) : ℚ := ((round (q * 100) : ℤ) : ℚ) / 100

/-- A `ServiceUpdate` request body: `none` is an absent field. -/
structure ServiceUpdateIn where
  name : Option String
  description : Option String
  duration : Option Int
  price : Option ℚ
  category : Option String
deriving DecidableEq

/-- Validation of `ServiceUpdate` (fields `name`, `description`,
`duration`, `price`, `category`; each supplied field also runs
`check_at_least_one_field` over the fields recorded so far). -/
def validateServiceUpdate (p : ServiceUpdateIn) : Except PyErr ServiceUpdateIn :=
  let s1 : List (String × Bool) × Bool :=
    match p.name with
    | none => ([(fName, true)], false)
    | some s =>
      if s.length < 1 || 100 < s.length then ([], true)
      else if checkAtLeastOneField [] then ([], true)
      else ([(fName, false)], false)
  let s2 : List (String × Bool) × Bool :=
    match p.description with
    | none => (s1.1 ++ [(fDescription, true)], s1.2)
    | some s =>
      if 1000 < s.length then (s1.1, true)
      else if checkAtLeastOneField s1.1 then (s1.1, true)
      else (s1.1 ++ [(fDescription, false)], s1.2)
  let s3 : List (String × Bool) × Bool :=
    match p.duration with
    | none => (s2.1 ++ [(fDuration, true)], s2.2)
    | some v =>
      if v ≤ 0 || 480 < v then (s2.1, true)
      else if v % 5 ≠ 0 then (s2.1, true)
      else if checkAtLeastOneField s2.1 then (s2.1, true)
      else (s2.1 ++ [(fDuration, false)], s2.2)
  let s4 : List (String × Bool) × Bool :=
    match p.price with
    | none => (s3.1 ++ [(fPrice, true)], s3.2)
    | some q =>
      if q < 0 then (s3.1, true)
      else if q ≠ roundTo2 q then (s3.1, true)
      else if checkAtLeastOneField s3.1 then (s3.1, true)
      else (s3.1 ++ [(fPrice, false)], s3.2)
  let s5 : List (String × Bool) × Bool :=
    match p.category with
    | none => (s4.1 ++ [(fCategory, true)], s4.2)
    | some s =>
      if 50 < s.length then (s4.1, true)
      else if checkAtLeastOneField s4.1 then (s4.1, true)
      else (s4.1 ++ [(fCategory, false)], s4.2)
  if s5.2 then .error .validationError else .ok p

/-- A `BookingUpdate` request body. -/
structure BookingUpdateIn where
  customer_name : Option String
  date : Option PyDateTime
  service_id : Option String
  status : Option BookingStatus
deriving DecidableEq

/-- Validation of `BookingUpdate` (fields `customer_name`, `date`,
`service_id`, `status`; `date` runs `validate_booking_date` — whose
naive-vs-aware `TypeError` propagates — before the at-least-one check). -/
def validateBookingUpdate (now : Int) (p : BookingUpdateIn) :
    Except PyErr BookingUpdateIn :=
  let s1 : List (String × Bool) × Bool :=
    match p.customer_name with
    | none => ([(fCustomerName, true)], false)
    | some s =>
      if s.length < 2 || 100 < s.length then ([], true)
      else if checkAtLeastOneField [] then ([], true)
      else ([(fCustomerName, false)], false)
  match (match p.date with
         | none => Except.ok (s1.1 ++ [(fDate, true)], s1.2)
         | some v =>
           match pyDTlt v ⟨now, none⟩ with
           | .error e => .error e
           | .ok isLt =>
             if isLt then .ok (s1.1, true)
             else if checkAtLeastOneField s1.1 then .ok (s1.1, true)
             else .ok (s1.1 ++ [(fDate, false)], s1.2)) with
  | .error e => .error e
  | .ok s2 =>
    let s3 : List (String × Bool) × Bool :=
      match p.service_id with
      | none => (s2.1 ++ [(fServiceId, true)], s2.2)
      | some s =>
        if !(isValidOidString s) then (s2.1, true)
        else if checkAtLeastOneField s2.1 then (s2.1, true)
        else (s2.1 ++ [(fServiceId, false)], s2.2)
    let s4 : List (String × Bool) × Bool :=
      match p.status with
      | none => (s3.1 ++ [(fStatus, true)], s3.2)
      | some _ =>
        if checkAtLeastOneField s3.1 then (s3.1, true)
        else (s3.1 ++ [(fStatus, false)], s3.2)
    if s4.2 then .error .validationError else .ok p

/-- A `BookingCreate` request body (required fields may still be absent
in the raw payload; `status` defaults to pending at this layer). -/
structure BookingCreateIn where
  customer_name : Option String
  date : Option PyDateTime
  service_id : Option String
  status : Option BookingStatus
deriving DecidableEq

/-- The validated `BookingCreate` model. -/
structure BookingCreateOut where
  customer_name : String
  date : PyDateTime
  service_id : String
  status : BookingStatus
deriving DecidableEq

/-- Validation of `BookingCreate`: required `customer_name` (2–100),
required `date` run through `validate_booking_date` (a booking date
before the naive `datetime.utcnow()` is a `ValueError`; an aware date
makes the comparison raise `TypeError`), required `service_id` parsed as
ObjectId, and `status` restricted to pending/confirmed when supplied,
defaulting to pending when absent (no validator runs on the default). -/
def validateBookingCreate (now : Int) (p : BookingCreateIn) :
    Except PyErr BookingCreateOut :=
  let e1 : Bool :=
    match p.customer_name with
    | none => true
    | some s => s.length < 2 || 100 < s.length
  match (match p.date with
         | none => Except.ok true
         | some v => pyDTlt v ⟨now, none⟩) with
  | .error e => .error e
  | .ok e2 =>
    let e3 : Bool :=
      match p.service_id with
      | none => true
      | some s => !(isValidOidString s)
    let e4 : Bool :=
      match p.status with
      | none => false
      | some st => decide (st ≠ .pending ∧ st ≠ .confirmed)
    if e1 || e2 || e3 || e4 then .error .validationError
    else
      match p.customer_name, p.date, p.service_id with
      | some cn, some d, some sid => .ok ⟨cn, d, oidCanon sid, p.status.getD .pending⟩
      | _, _, _ => .error .validationError

/-!  Decidability of `Except` equality, plus concrete sample data used by
closed theorems: a spare valid identifier, one stored service document
and one stored booking document together with the entities they parse
to, and a service entity holding naive timestamps. -/

instance {ε α : Type} [DecidableEq ε] [DecidableEq α] : DecidableEq (Except ε α) := fun a b =>
  match a, b with
  | .ok x, .ok y =>
      if h : x = y then .isTrue (by rw [h])
      else .isFalse (fun hh => h (Except.ok.inj hh))
  | .ok _, .error _ => .isFalse (fun hh => Except.noConfusion hh)
  | .error _, .ok _ => .isFalse (fun hh => Except.noConfusion hh)
  | .error x, .error y =>
      if h : x = y then .isTrue (by rw [h])
      else .isFalse (fun hh => h (Except.error.inj hh))

def emptyStr : String := ""
def custJohn : String := "John"
def oidA : String := "507f1f77bcf86cd799439011"
def oidAUpper : String := "507F1F77BCF86CD799439011"
def oidS : String := "aaaaaaaaaaaaaaaaaaaaaaaa"
def oidB : String := "bbbbbbbbbbbbbbbbbbbbbbbb"

/-- A stored service document. -/
def svcDocA : Doc :=
  [(fID, .oid oidS), (fName, .str custJohn), (fPrice, .int 10),
   (fDuration, .int 30), (fAvailability, .strList []),
   (fCreatedAt, .dt ⟨0, some 0⟩), (fUpdatedAt, .dt ⟨0, some 0⟩)]

/-- The entity `svcDocA` parses to. -/
def svcA : Service :=
  ⟨oidS, custJohn, none, 10, 30, [], none, ⟨0, some 0⟩, ⟨0, some 0⟩⟩

/-- A stored booking document. -/
def bkDocA : Doc :=
  [(fID, .oid oidB), (fUserId, .str custJohn), (fServiceId, .oid oidS),
   (fBookingTime, .dt ⟨5, some 0⟩), (fStatus, .str sPending),
   (fCreatedAt, .dt ⟨0, some 0⟩), (fUpdatedAt, .dt ⟨0, some 0⟩)]

/-- The entity `bkDocA` parses to. -/
def bkA : Booking :=
  ⟨oidB, custJohn, oidS, ⟨5, some 0⟩, sPending, none, ⟨0, some 0⟩, ⟨0, some 0⟩⟩

/-- A service entity whose timestamps are timezone-naive. -/
def svcNaiveA : Service :=
  ⟨oidA, custJohn, none, 25, 30, [], none, ⟨100, none⟩, ⟨100, none⟩⟩

/-- A string that is neither a native identifier nor 24-hex. -/
def badId : String := "zz"

/-!  Theorems.  Shared helper lemmas first, then one theorem per claim
(with its witness or counterexample where applicable). -/

theorem Doc.get_set_same (d : Doc) (k : String) (v : BVal) :
    Doc.get (Doc.set d k v) k = some v := by
  induction d with
  | nil => simp [Doc.set, Doc.get]
  | cons kv rest ih =>
    by_cases h : kv.1 = k
    · simp [Doc.set, h, Doc.get]
    · simp [Doc.set, h, Doc.get, ih]

theorem Doc.get_set_ne (d : Doc) (k k2 : String) (v : BVal) (h : k2 ≠ k) :
    Doc.get (Doc.set d k v) k2 = Doc.get d k2 := by
  induction d with
  | nil =>
    simp only [Doc.set, Doc.get]
    rw [if_neg (fun hh => h hh.symm)]
  | cons kv rest ih =>
    by_cases hh : kv.1 = k
    · subst hh
      simp only [Doc.set, if_pos rfl, Doc.get]
      rw [if_neg (fun hc => h hc.symm), if_neg (fun hc => h hc.symm)]
    · simp only [Doc.set, if_neg hh, Doc.get]
      by_cases h3 : kv.1 = k2
      · rw [if_pos h3, if_pos h3]
      · rw [if_neg h3, if_neg h3]
        exact ih

theorem mapE_ok_length {α β : Type} (f : α → Except PyErr β) :
    ∀ (l : List α) (r : List β), mapE f l = .ok r → r.length = l.length := by
  intro l
  induction l with
  | nil => intro r h; simp [mapE] at h; simp [← h]
  | cons a as ih =>
    intro r h
    simp only [mapE] at h
    split at h
    · exact absurd h (by simp)
    · split at h
      · exact absurd h (by simp)
      · cases h
        simp [ih _ (by assumption)]

theorem hexCharLower_hex (c : Char) (h : isHexDigit c = true) :
    isHexDigit (hexCharLower c) = true := by
  unfold hexCharLower
  split
  · decide
  · decide
  · decide
  · decide
  · decide
  · decide
  · exact h

theorem Booking.ofData_ok_status (now : Int) (fresh : String) (d : Doc) (b : Booking)
    (hof : Booking.ofData now fresh d = .ok b) : bookingStatusOf d = .ok b.status := by
  unfold Booking.ofData at hof
  split at hof
  · simp at hof
  split at hof
  · simp at hof
  split at hof
  · simp at hof
  split at hof
  · simp at hof
  split at hof
  · simp at hof
  split at hof
  · simp at hof
  split at hof
  · simp at hof
  split at hof
  · simp at hof
  cases hof
  assumption

/-- C1: the claim says both `get_service` and `get_booking` return the
explicit "not found" outcome for a well-formed id that matches no stored
record.  The code violates this for `get_booking`: `find_one` yields no
document and `Booking.from_mongo(None)` raises `TypeError` (`"_id" in
None`), contradicting the method's own docstring ("The booking object or
None if not found"), while `get_service` — whose body has the `if
document:` guard — does return the sentinel. -/
theorem C1_get_absent_booking_raises :
    BookingRepository.get_booking [] 0 oidA oidA = .error .typeError
    ∧ ServiceRepository.get_service [] 0 oidA oidA = .ok none := by
  constructor
  · decide
  · decide

/-- C2: the claim says both update methods return the "not found" outcome
exactly when no record matches the id.  `update_booking` violates it: the
initial load goes through `get_booking`, which raises `TypeError` on an
absent record instead of returning `None`, so the update crashes rather
than reporting "not found"; `update_service` behaves as claimed. -/
theorem C2_update_absent_booking_raises :
    BookingRepository.update_booking [] 0 oidA oidA [(fStatus, .str sConfirmed)]
      = ([], .error .typeError)
    ∧ ServiceRepository.update_service [] 0 oidA oidA [(fName, .str custJohn)]
      = ([], .ok none) := by
  constructor
  · decide
  · decide

/-- C3: the claim says a zero-field update fails validation (422) and a
one-field update passes the at-least-one-field check.  The code does the
opposite: with zero fields supplied no field validator runs at all, so
the empty `ServiceUpdate`/`BookingUpdate` payload validates successfully;
and a payload supplying a field fails, because the first supplied field's
`check_at_least_one_field` sees an `info.data` holding only `None`s (or
nothing, over which `all(...)` is vacuously true) and raises. -/
theorem C3_at_least_one_field_check_inverted :
    validateServiceUpdate ⟨none, none, none, none, none⟩
      = .ok ⟨none, none, none, none, none⟩
    ∧ validateServiceUpdate ⟨some custJohn, none, none, none, none⟩
      = .error .validationError
    ∧ validateBookingUpdate 0 ⟨none, none, none, none⟩
      = .ok ⟨none, none, none, none⟩
    ∧ validateBookingUpdate 0 ⟨none, none, none, some .confirmed⟩
      = .error .validationError := by
  refine ⟨by decide, by decide, by decide, by decide⟩

/-- C4 (counterexample): `from_mongo(to_mongo(entity))` does not
reproduce an entity that holds timezone-naive timestamps — `to_mongo`
re-tags them as UTC-aware, and a naive datetime is not equal to an aware
one. -/
theorem C4_naive_roundtrip_cex :
    Service.from_mongo 0 oidA (Service.to_mongo svcNaiveA) ≠ .ok svcNaiveA := by
  decide

/-- C4 (amended): for every Service and Booking, `from_mongo ∘ to_mongo`
returns the entity with each timezone-naive timestamp replaced by the
same wall-clock instant marked UTC — hence exactly the original entity
field-for-field whenever all its timestamp fields are timezone-aware. -/
theorem C4_roundtrip_normalizes_timestamps (e : Service) (b : Booking)
    (now now2 : Int) (fresh fresh2 : String) :
    Service.from_mongo now fresh (Service.to_mongo e)
      = .ok {e with created_at := ensureAware e.created_at,
                    updated_at := ensureAware e.updated_at}
    ∧ Booking.from_mongo now2 fresh2 (some (Booking.to_mongo b))
      = .ok {b with booking_time := ensureAware b.booking_time,
                    created_at := ensureAware b.created_at,
                    updated_at := ensureAware b.updated_at} := by
  constructor
  · rcases e with ⟨i, nm, desc, pr, du, av, cat, ca, ua⟩
    cases desc <;> cases cat <;> rfl
  · rcases b with ⟨i, uid, sid, bt, st, nts, ca, ua⟩
    cases nts <;> rfl

/-- C5 (counterexample): with `limit = 0` the driver applies no limit at
all (pymongo treats `limit(0)` as "no limit"), so a list call returns
more than `0 = n` items, refuting "at most `n` items" as universally
stated. -/
theorem C5_limit_zero_cex :
    ServiceRepository.list_services [svcDocA] 0 oidA 0 0 fName 1 none = .ok ([svcA], 1)
    ∧ ¬ (([svcA] : List Service).length ≤ (0 : Int).toNat) := by
  constructor
  · decide
  · decide

/-- C5 (amended): for every list call with `skip = k` and `limit = n ≥ 1`
that returns a page, the page is exactly the slice of the filtered and
sorted sequence starting at offset `k` of length at most `n`, and the
returned count equals the number of documents matching the filters in
the whole collection, independent of `k` and `n` — for both
`list_services` and `list_bookings`. -/
theorem C5_page_bound_and_count (coll bcoll : Collection) (now now2 : Int)
    (fresh fresh2 : String) (k n : Int) (sb sb2 : String) (dir : Int)
    (cat : Option String) (st : Option BookingStatus)
    (dfrom dto : Option PyDateTime) (sid cust : Option String) (q : MQuery)
    (svcs : List Service) (total : Nat) (bks : List Booking) (totalB : Nat)
    (hn : 1 ≤ n)
    (hq : bookingListFilter st dfrom dto sid cust = .ok q)
    (hok : ServiceRepository.list_services coll now fresh k n sb dir cat = .ok (svcs, total))
    (hokB : BookingRepository.list_bookings bcoll now2 fresh2 k n sb2 dir st dfrom dto sid cust
      = .ok (bks, totalB)) :
    svcs.length ≤ n.toNat
    ∧ total = (coll.filter (docMatches (serviceListFilter cat))).length
    ∧ mapE (Service.from_mongo now fresh)
        (((sortDocs sb dir (coll.filter (docMatches (serviceListFilter cat)))).drop
            k.toNat).take n.toNat)
        = .ok svcs
    ∧ bks.length ≤ n.toNat
    ∧ totalB = (bcoll.filter (docMatches q)).length
    ∧ mapE (fun d => Booking.from_mongo now2 fresh2 (some d))
        (((sortDocs sb2 dir (bcoll.filter (docMatches q))).drop k.toNat).take n.toNat)
        = .ok bks := by
  have hlim : ∀ l : List Doc, applyLimit n l = l.take n.toNat := by
    intro l
    unfold applyLimit
    rw [if_neg (by omega)]
    congr 1
    omega
  simp only [ServiceRepository.list_services] at hok
  by_cases hdir : dir = 1 ∨ dir = -1
  · rw [if_pos hdir] at hok
    by_cases hsk : k < 0
    · rw [if_pos hsk] at hok
      exact absurd hok (by simp)
    · rw [if_neg hsk] at hok
      split at hok
      · exact absurd hok (by simp)
      · rename_i svcs2 hmap
        rw [hlim] at hmap
        cases hok
        simp only [BookingRepository.list_bookings] at hokB
        rw [hq] at hokB
        simp only at hokB
        rw [if_pos hdir, if_neg hsk] at hokB
        split at hokB
        · exact absurd hokB (by simp)
        · rename_i bks2 hmapB
          rw [hlim] at hmapB
          cases hokB
          refine ⟨?_, rfl, hmap, ?_, rfl, hmapB⟩
          · rw [mapE_ok_length _ _ _ hmap, List.length_take]
            exact min_le_left _ _
          · rw [mapE_ok_length _ _ _ hmapB, List.length_take]
            exact min_le_left _ _
  · rw [if_neg hdir] at hok
    exact absurd hok (by simp)

/-- C5 (witness): on a one-service and a one-booking collection with
`skip = 0`, `limit = 5`, the theorem's conclusions hold concretely. -/
theorem C5_page_bound_and_count_witness :
    ([svcA] : List Service).length ≤ (5 : Int).toNat
    ∧ 1 = (([svcDocA] : Collection).filter (docMatches (serviceListFilter none))).length
    ∧ mapE (Service.from_mongo 0 oidA)
        (((sortDocs fName 1 (([svcDocA] : Collection).filter
            (docMatches (serviceListFilter none)))).drop
              (0 : Int).toNat).take (5 : Int).toNat)
        = .ok [svcA]
    ∧ ([bkA] : List Booking).length ≤ (5 : Int).toNat
    ∧ 1 = (([bkDocA] : Collection).filter (docMatches ([] : MQuery))).length
    ∧ mapE (fun d => Booking.from_mongo 0 oidA (some d))
        (((sortDocs fDate 1 (([bkDocA] : Collection).filter
            (docMatches ([] : MQuery)))).drop (0 : Int).toNat).take (5 : Int).toNat)
        = .ok [bkA] :=
  C5_page_bound_and_count [svcDocA] [bkDocA] 0 0 oidA oidA 0 5 fName fDate 1 none none
    none none none none [] [svcA] 1 [bkA] 1 (by decide) (by decide) (by decide) (by decide)

/-- C6: the claim says every Booking creation with a strictly past
`booking_time` fails with `ValidationFailed`/422, naive or aware.  The
naive case behaves as claimed, but `validate_booking_date` compares the
value against the naive `datetime.utcnow()`, so every timezone-aware
value — past or future — raises `TypeError` (a 500, not a 422). -/
theorem C6_past_booking_time_validation :
    validateBookingCreate 100 ⟨some custJohn, some ⟨50, none⟩, some oidA, none⟩
      = .error .validationError
    ∧ validateBookingCreate 100 ⟨some custJohn, some ⟨50, some 0⟩, some oidA, none⟩
      = .error .typeError := by
  constructor
  · decide
  · decide

/-- C7: a status-only update on an existing Booking `$set`s exactly
`status` and `updated_at`: the stored document after the operation agrees
with the old one on every other field (`user_id`/customer name,
`service_id`, `booking_time`/date, `notes`, `created_at`, ...), carries
the new status, and its `updated_at` is stamped to now — strictly later
than the previous value whenever the clock has advanced. -/
theorem C7_status_only_update_frame (coll : Collection) (now : Int) (fresh : String)
    (idStr oid : String) (doc : Doc) (b : Booking) (p : PyDateTime) (s : String)
    (hparse : parseObjectId idStr = some oid)
    (hfind : findFirstById coll oid = some doc)
    (hfrom : Booking.from_mongo now fresh (some doc) = .ok b)
    (hprev : Doc.get doc fUpdatedAt = some (.dt p))
    (hlt : utcInstant p < now) :
    (BookingRepository.update_booking coll now fresh idStr [(fStatus, .str s)]).1
      = replaceFirstById coll oid
          (applySet doc [(fStatus, .str s), (fUpdatedAt, .dt ⟨now, none⟩)])
    ∧ (∀ k2, k2 ≠ fStatus → k2 ≠ fUpdatedAt →
        Doc.get (applySet doc [(fStatus, .str s), (fUpdatedAt, .dt ⟨now, none⟩)]) k2
          = Doc.get doc k2)
    ∧ Doc.get (applySet doc [(fStatus, .str s), (fUpdatedAt, .dt ⟨now, none⟩)]) fStatus
        = some (.str s)
    ∧ Doc.get (applySet doc [(fStatus, .str s), (fUpdatedAt, .dt ⟨now, none⟩)]) fUpdatedAt
        = some (.dt ⟨now, none⟩)
    ∧ utcInstant p < utcInstant ⟨now, none⟩ := by
  have hset : applySet doc [(fStatus, .str s), (fUpdatedAt, .dt ⟨now, none⟩)]
      = Doc.set (Doc.set doc fStatus (.str s)) fUpdatedAt (.dt ⟨now, none⟩) := rfl
  have hgetUpd : Doc.get (applySet doc [(fStatus, .str s), (fUpdatedAt, .dt ⟨now, none⟩)])
      fUpdatedAt = some (.dt ⟨now, none⟩) := by
    rw [hset]
    exact Doc.get_set_same _ _ _
  have hne : applySet doc [(fStatus, .str s), (fUpdatedAt, .dt ⟨now, none⟩)] ≠ doc := by
    intro hcon
    rw [hcon, hprev] at hgetUpd
    have hp : BVal.dt p = BVal.dt ⟨now, none⟩ := Option.some.inj hgetUpd
    have hp2 : p = ⟨now, none⟩ := by injection hp
    rw [hp2] at hlt
    simp [utcInstant] at hlt
  have hget : BookingRepository.get_booking coll now fresh idStr = .ok (some b) := by
    unfold BookingRepository.get_booking
    rw [hparse]
    show Except.map some (Booking.from_mongo now fresh (findFirstById coll oid)) = _
    rw [hfind, hfrom]
    rfl
  refine ⟨?_, ?_, ?_, ?_, hlt⟩
  · unfold BookingRepository.update_booking
    rw [hparse]
    simp only [hget]
    unfold updateOneById
    simp only [hfind]
    rw [show Doc.set [(fStatus, BVal.str s)] fUpdatedAt (BVal.dt ⟨now, none⟩)
          = [(fStatus, BVal.str s), (fUpdatedAt, BVal.dt ⟨now, none⟩)] from rfl]
    rw [if_neg hne]
    rw [if_neg (by decide : ¬ (1 : Nat) = 0)]
    rcases hre : BookingRepository.get_booking
        (replaceFirstById coll oid
          (applySet doc [(fStatus, .str s), (fUpdatedAt, .dt ⟨now, none⟩)]))
        now fresh idStr with e | ob
    · rfl
    · rfl
  · intro k2 hk2s hk2u
    rw [hset, Doc.get_set_ne _ _ _ _ hk2u, Doc.get_set_ne _ _ _ _ hk2s]
  · rw [hset, Doc.get_set_ne _ _ _ _ (by decide), Doc.get_set_same]
  · exact hgetUpd

/-- C7 (witness): updating the stored booking's status to "canceled" at
time 50 changes exactly `status` and `updated_at` and advances
`updated_at` strictly. -/
theorem C7_status_only_update_frame_witness :
    (BookingRepository.update_booking [bkDocA] 50 oidA oidB [(fStatus, .str sCanceled)]).1
      = replaceFirstById [bkDocA] oidB
          (applySet bkDocA [(fStatus, .str sCanceled), (fUpdatedAt, .dt ⟨50, none⟩)])
    ∧ (∀ k2, k2 ≠ fStatus → k2 ≠ fUpdatedAt →
        Doc.get (applySet bkDocA [(fStatus, .str sCanceled), (fUpdatedAt, .dt ⟨50, none⟩)]) k2
          = Doc.get bkDocA k2)
    ∧ Doc.get (applySet bkDocA [(fStatus, .str sCanceled), (fUpdatedAt, .dt ⟨50, none⟩)])
        fStatus = some (.str sCanceled)
    ∧ Doc.get (applySet bkDocA [(fStatus, .str sCanceled), (fUpdatedAt, .dt ⟨50, none⟩)])
        fUpdatedAt = some (.dt ⟨50, none⟩)
    ∧ utcInstant ⟨0, some 0⟩ < utcInstant ⟨50, none⟩ :=
  C7_status_only_update_frame [bkDocA] 50 oidA oidB oidB bkDocA bkA ⟨0, some 0⟩ sCanceled
    (by decide) (by decide) (by decide) (by decide) (by decide)

/-- C8: a string that is not a valid 24-hex identifier is rejected by
`getById`, `update`, and `delete` of both repositories with the
400-mapped `InvalidIdentifier` failure, before any store query — the
collection is returned unchanged; and every accepted string parses to an
identifier whose string form is exactly 24 hex characters. -/
theorem C8_identifier_parsing (coll collB : Collection) (now : Int) (fresh : String)
    (s t h : String) (d d2 : Doc)
    (hbad : isValidOidString s = false)
    (hgood : parseObjectId t = some h) :
    ServiceRepository.get_service coll now fresh s = .error (.http 400)
    ∧ BookingRepository.get_booking coll now fresh s = .error (.http 400)
    ∧ ServiceRepository.update_service coll now fresh s d = (coll, .error (.http 400))
    ∧ BookingRepository.update_booking collB now fresh s d2 = (collB, .error (.http 400))
    ∧ ServiceRepository.delete_service coll s = (coll, .error (.http 400))
    ∧ BookingRepository.delete_booking collB s = (collB, .error (.http 400))
    ∧ (oidToString h).length = 24
    ∧ (oidToString h).data.all isHexDigit = true := by
  have hnone : parseObjectId s = none := by
    unfold parseObjectId
    rw [hbad]
    rfl
  have hvt : isValidOidString t = true ∧ h = oidCanon t := by
    unfold parseObjectId at hgood
    split at hgood
    · exact ⟨by assumption, (Option.some.inj hgood).symm⟩
    · exact absurd hgood (by simp)
  have hlen : t.length = 24 ∧ t.data.all isHexDigit = true := by
    have := hvt.1
    simp only [isValidOidString, Bool.and_eq_true, decide_eq_true_eq] at this
    exact this
  refine ⟨?_, ?_, ?_, ?_, ?_, ?_, ?_, ?_⟩
  · unfold ServiceRepository.get_service
    rw [hnone]
  · unfold BookingRepository.get_booking
    rw [hnone]
  · unfold ServiceRepository.update_service
    rw [hnone]
  · unfold BookingRepository.update_booking
    rw [hnone]
  · unfold ServiceRepository.delete_service
    rw [hnone]
  · unfold BookingRepository.delete_booking
    rw [hnone]
  · rw [hvt.2]
    show (String.mk (t.data.map hexCharLower)).length = 24
    have h2 : (String.mk (t.data.map hexCharLower)).length
        = (t.data.map hexCharLower).length := rfl
    rw [h2, List.length_map]
    exact hlen.1
  · rw [hvt.2]
    show ((String.mk (t.data.map hexCharLower)).data.all isHexDigit) = true
    simp only [List.all_map]
    rw [List.all_eq_true] at hlen ⊢
    intro c hc
    exact hexCharLower_hex c (hlen.2 c hc)

/-- C8 (witness): the malformed id string is rejected by all six
operations with the collection unchanged, and the upper-case 24-hex
string parses to the lower-case 24-hex identifier. -/
theorem C8_identifier_parsing_witness :
    ServiceRepository.get_service [] 0 oidA badId = .error (.http 400)
    ∧ BookingRepository.get_booking [] 0 oidA badId = .error (.http 400)
    ∧ ServiceRepository.update_service [] 0 oidA badId [] = ([], .error (.http 400))
    ∧ BookingRepository.update_booking [] 0 oidA badId [] = ([], .error (.http 400))
    ∧ ServiceRepository.delete_service [] badId = ([], .error (.http 400))
    ∧ BookingRepository.delete_booking [] badId = ([], .error (.http 400))
    ∧ (oidToString oidA).length = 24
    ∧ (oidToString oidA).data.all isHexDigit = true :=
  C8_identifier_parsing [] [] 0 oidA badId oidAUpper oidA [] [] (by decide) (by decide)

/-- C9: a field mapping without a `status` key reaching the Booking model
(as `create_booking` does) produces a booking whose status is the
model-level default "confirmed", whereas a `BookingCreate` payload
without a status validates to the schema-level default "pending" — the
two layers apply different defaults for the same absent field. -/
theorem C9_status_default_divergence (coll : Collection) (now now2 : Int) (fresh : String)
    (data : Doc) (b : Booking) (p : BookingCreateIn) (m : BookingCreateOut)
    (h1 : Doc.get data fStatus = none)
    (h2 : (BookingRepository.create_booking coll now fresh data).2 = .ok b)
    (h3 : p.status = none)
    (h4 : validateBookingCreate now2 p = .ok m) :
    b.status = sConfirmed ∧ m.status = .pending := by
  constructor
  · rcases hco : Booking.ofData now fresh data with e | b0
    · unfold BookingRepository.create_booking at h2
      rw [hco] at h2
      simp at h2
    · unfold BookingRepository.create_booking at h2
      rw [hco] at h2
      simp only at h2
      cases h2
      have hst := Booking.ofData_ok_status now fresh data _ hco
      rw [bookingStatusOf, h1] at hst
      exact (Except.ok.inj hst).symm
  · simp only [validateBookingCreate] at h4
    split at h4
    · simp at h4
    split at h4
    · simp at h4
    split at h4
    · rename_i cn dd sid hmatch
      cases h4
      simp [h3]
    · simp at h4

/-- C9 (witness): a concrete status-free mapping creates a "confirmed"
booking while the status-free create payload validates to "pending". -/
theorem C9_status_default_divergence_witness :
    (⟨oidA, custJohn, oidS, ⟨9, none⟩, sConfirmed, none, ⟨7, some 0⟩, ⟨7, some 0⟩⟩
        : Booking).status = sConfirmed
    ∧ (⟨custJohn, ⟨500, none⟩, oidCanon oidA, .pending⟩ : BookingCreateOut).status
        = BookingStatus.pending :=
  C9_status_default_divergence [] 7 100 oidA
    [(fUserId, .str custJohn), (fServiceId, .oid oidS), (fBookingTime, .dt ⟨9, none⟩)]
    ⟨oidA, custJohn, oidS, ⟨9, none⟩, sConfirmed, none, ⟨7, some 0⟩, ⟨7, some 0⟩⟩
    ⟨some custJohn, some ⟨500, none⟩, some oidA, none⟩
    ⟨custJohn, ⟨500, none⟩, oidCanon oidA, .pending⟩
    (by decide) (by decide) (by decide) (by decide)

/-- C10: an empty-string filter parameter is treated exactly like an
absent one — `list_services` with `category = ""` and `list_bookings`
with `service_id = ""` or `customer_name = ""` build the same query as
the unfiltered call (the `if parameter:` truthiness tests drop them), so
no call can select documents whose field equals the empty string. -/
theorem C10_falsy_filters_ignored (coll bcoll : Collection) (now : Int) (fresh : String)
    (k n : Int) (sb sb2 : String) (dir : Int) (st : Option BookingStatus)
    (dfrom dto : Option PyDateTime) (cust sid : Option String) :
    ServiceRepository.list_services coll now fresh k n sb dir (some emptyStr)
      = ServiceRepository.list_services coll now fresh k n sb dir none
    ∧ BookingRepository.list_bookings bcoll now fresh k n sb2 dir st dfrom dto
        (some emptyStr) cust
      = BookingRepository.list_bookings bcoll now fresh k n sb2 dir st dfrom dto none cust
    ∧ BookingRepository.list_bookings bcoll now fresh k n sb2 dir st dfrom dto sid
        (some emptyStr)
      = BookingRepository.list_bookings bcoll now fresh k n sb2 dir st dfrom dto sid none := by
  refine ⟨rfl, rfl, rfl⟩
